import Mathlib

/-!
Verification of the Interactive Text Adventure Game (`adventure_game.py`).

Shallow embedding:
* Python objects become Lean structures; the cyclic `Room` reference graph
  (`room1.north = room2`, `room2.south = room1`, ...) is broken by addressing
  rooms through `RoomId`, with the mutable room records held in `Rooms`.
* Machine-visible output (`print` calls) is modelled by an inductive `Msg`
  carrying the dynamic data of each print site; every operation returns the
  successor `Game` state together with the list of messages it printed.
* The two calls to `random.randint` inside a combat round (the player's and
  the enemy's damage rolls) become explicit `Int` parameters `pd` and `ed`.
* Python `str.lower` / `str.upper` / `str.strip` / slicing are modelled on
  the character list underlying a Lean `String`.
-/

namespace Adventure

/-- Python `str.lower` (ASCII, as used by the game's command vocabulary). -/
def lowerStr (s : String) : String := ⟨s.data.map Char.toLower⟩

/-- Python `str.upper` (ASCII). -/
def upperStr (s : String) : String := ⟨s.data.map Char.toUpper⟩

/-- The characters removed by Python `str.strip()` with no argument. -/
def isPySpace (c : Char) : Bool :=
  c == ' ' || c == '\t' || c == '\n' || c == '\r' || c == '\x0b' || c == '\x0c'

/-- Python `str.strip()`: drop leading and trailing whitespace. -/
def pyStrip (s : String) : String :=
  ⟨((s.data.dropWhile isPySpace).reverse.dropWhile isPySpace).reverse⟩

/-- Python `s.startswith(p)`. -/
def pyStartsWith (s p : String) : Bool := p.data.isPrefixOf s.data

/-- Python slicing `s[n:]` (ASCII index = character index). -/
def pyDrop (s : String) (n : Nat) : String := ⟨s.data.drop n⟩

/-- `class Item`: name, description, takeable flag. -/
structure Item where
  name : String
  description : String
  takeable : Bool
deriving Repr, DecidableEq

/-- Identities of the three rooms created by `Game.setup_game`. -/
inductive RoomId where
  | room1
  | room2
  | room3
deriving Repr, DecidableEq

/-- `class Room`: the `north`/`south` object references become `Option RoomId`. -/
structure Room where
  name : String
  description : String
  items : List Item
  north : Option RoomId
  south : Option RoomId
  north_door_locked : Bool
  visited : Bool
deriving Repr, DecidableEq

/-- `Room.get_item`: first item whose lowered name matches, without removal. -/
def getItemByName : List Item → String → Option Item
  | [], _ => none
  | i :: rest, n =>
    if lowerStr i.name = lowerStr n then some i else getItemByName rest n

/-- `Room.remove_item`: remove the first item whose lowered name matches,
returning the remaining list and the removed item. -/
def removeItemByName : List Item → String → List Item × Option Item
  | [], _ => ([], none)
  | i :: rest, n =>
    if lowerStr i.name = lowerStr n then (rest, some i)
    else
      let p := removeItemByName rest n
      (i :: p.1, p.2)

def Room.get_item (r : Room) (item_name : String) : Option Item :=
  getItemByName r.items item_name

def Room.remove_item (r : Room) (item_name : String) : Room × Option Item :=
  let p := removeItemByName r.items item_name
  ({ r with items := p.1 }, p.2)

/-- `class Player`. Health values are Python ints. -/
structure Player where
  inventory : List Item
  health : Int
  max_health : Int
  min_damage : Int
  max_damage : Int
deriving Repr, DecidableEq

/-- `Player.__init__`. -/
def Player.init : Player :=
  { inventory := [], health := 20, max_health := 20, min_damage := 1, max_damage := 6 }

/-- `Player.add_item`: `list.append`. -/
def Player.add_item (p : Player) (i : Item) : Player :=
  { p with inventory := p.inventory ++ [i] }

/-- `Player.has_item`. -/
def Player.has_item (p : Player) (n : String) : Bool :=
  p.inventory.any fun i => lowerStr i.name == lowerStr n

/-- `Player.take_damage`: subtract, then clamp at zero. -/
def Player.take_damage (p : Player) (damage : Int) : Player :=
  let h := p.health - damage
  { p with health := if h < 0 then 0 else h }

/-- `class Enemy`. -/
structure Enemy where
  name : String
  health : Int
  max_health : Int
  min_damage : Int
  max_damage : Int
deriving Repr, DecidableEq

/-- `Enemy.take_damage`: subtract, then clamp at zero. -/
def Enemy.take_damage (e : Enemy) (damage : Int) : Enemy :=
  let h := e.health - damage
  { e with health := if h < 0 then 0 else h }

/-- `Enemy.is_alive`. -/
def Enemy.is_alive (e : Enemy) : Bool := e.health > 0

/-- The mutable room records, indexed by `RoomId`. -/
structure Rooms where
  room1 : Room
  room2 : Room
  room3 : Room
deriving Repr, DecidableEq

def Rooms.get (rs : Rooms) : RoomId → Room
  | .room1 => rs.room1
  | .room2 => rs.room2
  | .room3 => rs.room3

def Rooms.set (rs : Rooms) : RoomId → Room → Rooms
  | .room1, r => { rs with room1 := r }
  | .room2, r => { rs with room2 := r }
  | .room3, r => { rs with room3 := r }

/-- One message per `print` site of the game (contiguous prints of one site
are grouped), carrying the dynamic data interpolated at that site. -/
inductive Msg where
  | helpText
  | goodbye
  | fullDesc (r : Room)
  | inventoryMsg (names : List String)
  | cantGoThatWay
  | lockedDoor
  | onlyNorthSouth
  | pickedUpKey
  | noKeyHere
  | readNoteMsg (password : String)
  | noNoteHere
  | alreadyUnlocked
  | dontHaveKey
  | doorUnlocks
  | incorrectPassword
  | doorAlreadyOpen
  | noDoorHere
  | combatStart (eHealth eMax pHealth pMax : Int)
  | playerAttack (enemyName : String) (dmg eHealth eMax : Int)
  | victory (enemyName : String)
  | enemyAttack (enemyName : String) (dmg pHealth pMax : Int)
  | defeat
  | whatWillYouDo
  | combatOnlyAttack
  | dontUnderstand
deriving Repr, DecidableEq

/-- `class Game`: the whole mutable state of the controller. -/
structure Game where
  player : Player
  current_room : RoomId
  rooms : Rooms
  door_unlocked : Bool
  password : String
  game_over : Bool
  game_won : Bool
  in_combat : Bool
  enemy : Option Enemy
  enemy_defeated : Bool
deriving Repr, DecidableEq

/-- The `key` item created by `setup_game`. -/
def keyItem : Item := { name := "key", description := "A rusty iron key", takeable := true }

/-- The `note` item created by `setup_game`. -/
def noteItem : Item :=
  { name := "note"
    description := "A weathered piece of parchment with writing on it"
    takeable := false }

/-- The room graph built by `Game.setup_game`. -/
def initRooms : Rooms :=
  { room1 :=
      { name := "Starting Chamber"
        description := "You find yourself in a dimly lit stone chamber. The walls are cold and damp.\nA heavy wooden door stands to the north."
        items := [keyItem]
        north := some .room2
        south := none
        north_door_locked := true
        visited := false }
    room2 :=
      { name := "Treasury Room"
        description := "You enter a magnificent treasury filled with ancient artifacts and golden treasures.\nThe room sparkles with an otherworldly glow."
        items := [noteItem]
        north := some .room3
        south := some .room1
        north_door_locked := false
        visited := false }
    room3 :=
      { name := "Enemy Arena"
        description := "You step into a vast arena. The air is thick with tension.\nA menacing shadow moves in the darkness ahead!"
        items := []
        north := none
        south := some .room2
        north_door_locked := false
        visited := false } }

/-- `Game.__init__` followed by `setup_game`. -/
def Game.init : Game :=
  { player := Player.init
    current_room := .room1
    rooms := initRooms
    door_unlocked := false
    password := "SHADOW"
    game_over := false
    game_won := false
    in_combat := false
    enemy := none
    enemy_defeated := false }

/-- `Game.start_combat`: construct the Dark Warrior and enter combat mode. -/
def Game.start_combat (g : Game) : Game × List Msg :=
  let e : Enemy :=
    { name := "Dark Warrior", health := 10, max_health := 10, min_damage := 1, max_damage := 4 }
  ({ g with enemy := some e, in_combat := true },
   [Msg.combatStart e.health e.max_health g.player.health g.player.max_health])

/-- `Game.move`: navigation, the north-door lock check, and the Enemy Arena
combat trigger. -/
def Game.move (g : Game) (direction : String) : Game × List Msg :=
  let direction := lowerStr direction
  if direction = "north" then
    match (g.rooms.get g.current_room).north with
    | some next =>
      if (g.rooms.get g.current_room).north_door_locked then
        (g, [Msg.lockedDoor])
      else
        let g1 := { g with current_room := next }
        let descMsg := Msg.fullDesc (g1.rooms.get g1.current_room)
        if (g1.rooms.get g1.current_room).name = "Enemy Arena" ∧ g1.enemy_defeated = false then
          let p := g1.start_combat
          (p.1, descMsg :: p.2)
        else
          (g1, [descMsg])
    | none => (g, [Msg.cantGoThatWay])
  else if direction = "south" then
    match (g.rooms.get g.current_room).south with
    | some next =>
      let g1 := { g with current_room := next }
      (g1, [Msg.fullDesc (g1.rooms.get g1.current_room)])
    | none => (g, [Msg.cantGoThatWay])
  else
    (g, [Msg.onlyNorthSouth])

/-- `Game.take_key`. -/
def Game.take_key (g : Game) : Game × List Msg :=
  let room := g.rooms.get g.current_room
  match room.get_item "key" with
  | some key =>
    let room1 := (room.remove_item "key").1
    ({ g with
        rooms := g.rooms.set g.current_room room1
        player := g.player.add_item key },
     [Msg.pickedUpKey])
  | none => (g, [Msg.noKeyHere])

/-- `Game.read_note`. -/
def Game.read_note (g : Game) : Game × List Msg :=
  match (g.rooms.get g.current_room).get_item "note" with
  | some _ => (g, [Msg.readNoteMsg g.password])
  | none => (g, [Msg.noNoteHere])

/-- `Game.unlock_door`. -/
def Game.unlock_door (g : Game) (password : String) : Game × List Msg :=
  if g.door_unlocked then
    (g, [Msg.alreadyUnlocked])
  else if ¬ g.player.has_item "key" then
    (g, [Msg.dontHaveKey])
  else if password = g.password then
    ({ g with
        door_unlocked := true
        rooms := { g.rooms with room1 := { g.rooms.room1 with north_door_locked := false } } },
     [Msg.doorUnlocks])
  else
    (g, [Msg.incorrectPassword])

/-- `Game.open_door`. -/
def Game.open_door (g : Game) : Game × List Msg :=
  if (g.rooms.get g.current_room).name = "Starting Chamber" then
    if g.door_unlocked || !(g.rooms.get g.current_room).north_door_locked then
      (g, [Msg.doorAlreadyOpen])
    else
      (g, [Msg.lockedDoor])
  else
    (g, [Msg.noDoorHere])

/-- `Game.combat_turn`, with the player's and the enemy's `random.randint`
damage rolls passed in as `pd` and `ed`. -/
def Game.combat_turn (g : Game) (pd ed : Int) : Game × List Msg :=
  match g.enemy with
  | none => (g, [])
  | some e =>
    if g.in_combat = false then (g, [])
    else
      let e1 := e.take_damage pd
      let g1 := { g with enemy := some e1 }
      let m1 := Msg.playerAttack e1.name pd e1.health e1.max_health
      if ¬ e1.is_alive then
        ({ g1 with
            in_combat := false
            enemy_defeated := true
            game_won := true
            game_over := true },
         [m1, Msg.victory e1.name])
      else
        let p1 := g1.player.take_damage ed
        let g2 := { g1 with player := p1 }
        let m2 := Msg.enemyAttack e1.name ed p1.health p1.max_health
        if p1.health ≤ (0 : Int) then
          ({ g2 with in_combat := false, game_over := true }, [m1, m2, Msg.defeat])
        else
          (g2, [m1, m2, Msg.whatWillYouDo])

/-- The command dispatch if-chain of `Game.process_command`, in source order,
applied to the already lowered and stripped command. -/
def Game.dispatch (g : Game) (command : String) (pd ed : Int) : Game × List Msg :=
  if command = "" then (g, [])
  else if g.in_combat = true then
    if command = "attack" then g.combat_turn pd ed
    else (g, [Msg.combatOnlyAttack])
  else if command = "help" then (g, [Msg.helpText])
  else if command = "quit" ∨ command = "exit" ∨ command = "q" then
    ({ g with game_over := true }, [Msg.goodbye])
  else if pyStartsWith command "go " then
    g.move (pyStrip (pyDrop command 3))
  else if command = "look" then
    (g, [Msg.fullDesc (g.rooms.get g.current_room)])
  else if command = "inventory" ∨ command = "i" then
    (g, [Msg.inventoryMsg (g.player.inventory.map Item.name)])
  else if command = "take key" ∨ command = "pick up key" ∨ command = "get key" then
    g.take_key
  else if command = "read note" ∨ command = "examine note" ∨ command = "look at note" then
    g.read_note
  else if pyStartsWith command "unlock door with " then
    g.unlock_door (upperStr (pyStrip (pyDrop command 17)))
  else if command = "open door" ∨ command = "open north door" then
    g.open_door
  else
    (g, [Msg.dontUnderstand])

/-- `Game.process_command`: `command = command.lower().strip()`, then the
dispatch if-chain. -/
def Game.process_command (g : Game) (input : String) (pd ed : Int) : Game × List Msg :=
  g.dispatch (pyStrip (lowerStr input)) pd ed

/-- The states the main loop `Game.run` can put the controller in: the loop
processes a command only while `game_over` is false; the damage rolls are
arbitrary integers. -/
inductive Reachable : Game → Prop where
  | init : Reachable Game.init
  | step (g : Game) (input : String) (pd ed : Int) :
      Reachable g → g.game_over = false →
      Reachable (g.process_command input pd ed).1

/-- Processing a whole list of inputs, each with its pair of damage rolls. -/
def Game.runCommands (g : Game) : List (String × Int × Int) → Game
  | [] => g
  | (s, pd, ed) :: rest => ((g.process_command s pd ed).1).runCommands rest

/-- The enemy constructed by `Game.start_combat`. -/
def darkWarrior : Enemy :=
  { name := "Dark Warrior", health := 10, max_health := 10, min_damage := 1, max_damage := 4 }

/-- How many items of the list carry the given (lowered) name. -/
def countItemsNamed (l : List Item) (n : String) : Nat :=
  (l.filter fun i => lowerStr i.name == lowerStr n).length

/-- Winning is declared only together with ending the game and defeating the
enemy. -/
def WonInv (g : Game) : Prop :=
  g.game_won = true → g.game_over = true ∧ g.enemy_defeated = true

/-- `in_combat` holds exactly when a live enemy is present and no end of the
game has been declared. -/
def CombatInv (g : Game) : Prop :=
  g.in_combat = true ↔
    ((∃ e, g.enemy = some e ∧ 0 < e.health) ∧ g.game_won = false ∧ g.game_over = false)

/-- The conjunction of the two global invariants. -/
def StateInv (g : Game) : Prop := WonInv g ∧ CombatInv g

/-- A concrete winning run: pick up the key, unlock the door, walk to the
arena, and defeat the Dark Warrior with a single maximal roll. -/
def wTake : Game := (Game.init.process_command "take key" 1 1).1

def wUnlock : Game := (wTake.process_command "unlock door with shadow" 1 1).1

def wTreasury : Game := (wUnlock.process_command "go north" 1 1).1

def wArena : Game := (wTreasury.process_command "go north" 1 1).1

def wHalf : Game := (wArena.process_command "attack" 6 2).1

def wWon : Game := (wHalf.process_command "attack" 6 2).1

/-- A state in the middle of the arena fight, used as a concrete probe. -/
def combatProbe : Game :=
  { Game.init with current_room := .room3, in_combat := true, enemy := some darkWarrior }

/-- A state standing in the Enemy Arena after the fight, used as a concrete
probe: the arena has no north exit. -/
def noNorthProbe : Game :=
  { Game.init with current_room := .room3, enemy_defeated := true }

/-! ### Helper lemmas about the individual operations -/

theorem open_door_state (g : Game) : (g.open_door).1 = g := by
  simp only [Game.open_door]
  repeat' split
  all_goals rfl

theorem read_note_state (g : Game) : (g.read_note).1 = g := by
  simp only [Game.read_note]
  repeat' split
  all_goals rfl

theorem in_combat_false_of_not (g : Game) (h : ¬ (g.in_combat = true)) :
    g.in_combat = false := by
  cases hc : g.in_combat
  · rfl
  · exact absurd hc h

set_option maxHeartbeats 1000000 in
/-- Every branch of the command dispatcher is the identity on the state, the
quit branch, a call to `move`, `take_key` or `unlock_door` (all outside
combat), or a call to `combat_turn` (inside combat). -/
theorem dispatch_shape (g : Game) (command : String) (pd ed : Int) :
    (g.dispatch command pd ed).1 = g ∨
    (g.in_combat = false ∧ (g.dispatch command pd ed).1 = { g with game_over := true }) ∨
    (g.in_combat = false ∧ ∃ d, g.dispatch command pd ed = g.move d) ∨
    (g.in_combat = false ∧ g.dispatch command pd ed = g.take_key) ∨
    (g.in_combat = false ∧ ∃ p, g.dispatch command pd ed = g.unlock_door p) ∨
    (g.in_combat = true ∧ g.dispatch command pd ed = g.combat_turn pd ed) := by
  have key : ∀ res : Game × List Msg, g.dispatch command pd ed = res →
      (res.1 = g ∨
       (g.in_combat = false ∧ res.1 = { g with game_over := true }) ∨
       (g.in_combat = false ∧ ∃ d, res = g.move d) ∨
       (g.in_combat = false ∧ res = g.take_key) ∨
       (g.in_combat = false ∧ ∃ p, res = g.unlock_door p) ∨
       (g.in_combat = true ∧ res = g.combat_turn pd ed)) := by
    intro res hres
    unfold Game.dispatch at hres
    repeat' split at hres
    all_goals subst hres
    all_goals first
      | exact Or.inl rfl
      | exact Or.inl (open_door_state g)
      | exact Or.inl (read_note_state g)
      | exact Or.inr (Or.inr (Or.inr (Or.inr (Or.inr ⟨‹g.in_combat = true›, rfl⟩))))
      | exact Or.inr (Or.inl ⟨in_combat_false_of_not g ‹¬ (g.in_combat = true)›, rfl⟩)
      | exact Or.inr (Or.inr (Or.inl
          ⟨in_combat_false_of_not g ‹¬ (g.in_combat = true)›, _, rfl⟩))
      | exact Or.inr (Or.inr (Or.inr (Or.inl
          ⟨in_combat_false_of_not g ‹¬ (g.in_combat = true)›, rfl⟩)))
      | exact Or.inr (Or.inr (Or.inr (Or.inr (Or.inl
          ⟨in_combat_false_of_not g ‹¬ (g.in_combat = true)›, _, rfl⟩))))
  exact key _ rfl

/-- `process_command` is `dispatch` on the normalised command. -/
theorem process_command_shape (g : Game) (input : String) (pd ed : Int) :
    (g.process_command input pd ed).1 = g ∨
    (g.in_combat = false ∧ (g.process_command input pd ed).1 = { g with game_over := true }) ∨
    (g.in_combat = false ∧ ∃ d, g.process_command input pd ed = g.move d) ∨
    (g.in_combat = false ∧ g.process_command input pd ed = g.take_key) ∨
    (g.in_combat = false ∧ ∃ p, g.process_command input pd ed = g.unlock_door p) ∨
    (g.in_combat = true ∧ g.process_command input pd ed = g.combat_turn pd ed) :=
  dispatch_shape g (pyStrip (lowerStr input)) pd ed

/-- `move` never touches the player, the room records, the door flag, the
password, the game-over flags, or `enemy_defeated`. -/
theorem move_frame (g : Game) (d : String) :
    (g.move d).1.player = g.player ∧ (g.move d).1.rooms = g.rooms ∧
    (g.move d).1.door_unlocked = g.door_unlocked ∧ (g.move d).1.password = g.password ∧
    (g.move d).1.game_over = g.game_over ∧ (g.move d).1.game_won = g.game_won ∧
    (g.move d).1.enemy_defeated = g.enemy_defeated := by
  simp only [Game.move, Game.start_combat]
  repeat' split
  all_goals exact ⟨rfl, rfl, rfl, rfl, rfl, rfl, rfl⟩

/-- `move` either leaves the combat fields alone, or (entering the Enemy
Arena with the enemy not yet defeated) starts combat with a fresh Dark
Warrior. -/
theorem move_combat_cases (g : Game) (d : String) :
    ((g.move d).1.in_combat = g.in_combat ∧ (g.move d).1.enemy = g.enemy) ∨
    (g.enemy_defeated = false ∧ (g.move d).1.in_combat = true ∧
     (g.move d).1.enemy = some darkWarrior) := by
  simp only [Game.move, Game.start_combat]
  repeat' split
  all_goals first
    | exact Or.inl ⟨rfl, rfl⟩
    | (rename_i h; exact Or.inr ⟨h.2, rfl, rfl⟩)

/-- `take_key` never touches anything but the current room's items and the
inventory. -/
theorem take_key_frame (g : Game) :
    (g.take_key).1.current_room = g.current_room ∧
    (g.take_key).1.door_unlocked = g.door_unlocked ∧
    (g.take_key).1.password = g.password ∧
    (g.take_key).1.game_over = g.game_over ∧ (g.take_key).1.game_won = g.game_won ∧
    (g.take_key).1.in_combat = g.in_combat ∧ (g.take_key).1.enemy = g.enemy ∧
    (g.take_key).1.enemy_defeated = g.enemy_defeated ∧
    (g.take_key).1.player.health = g.player.health := by
  simp only [Game.take_key, Player.add_item]
  repeat' split
  all_goals exact ⟨rfl, rfl, rfl, rfl, rfl, rfl, rfl, rfl, rfl⟩

/-- `take_key` preserves the lock flag of every room. -/
theorem take_key_locks (g : Game) (r : RoomId) :
    ((g.take_key).1.rooms.get r).north_door_locked = (g.rooms.get r).north_door_locked := by
  simp only [Game.take_key, Room.remove_item]
  repeat' split
  all_goals cases hc : g.current_room <;> cases r <;> simp_all [Rooms.get, Rooms.set]

/-- `unlock_door` never touches the player, the current room, the password,
the game-over flags, or the combat fields. -/
theorem unlock_door_frame (g : Game) (p : String) :
    (g.unlock_door p).1.player = g.player ∧
    (g.unlock_door p).1.current_room = g.current_room ∧
    (g.unlock_door p).1.password = g.password ∧
    (g.unlock_door p).1.game_over = g.game_over ∧
    (g.unlock_door p).1.game_won = g.game_won ∧
    (g.unlock_door p).1.in_combat = g.in_combat ∧
    (g.unlock_door p).1.enemy = g.enemy ∧
    (g.unlock_door p).1.enemy_defeated = g.enemy_defeated := by
  simp only [Game.unlock_door]
  repeat' split
  all_goals exact ⟨rfl, rfl, rfl, rfl, rfl, rfl, rfl, rfl⟩

/-- Once the door flag is set, `unlock_door` is a no-op. -/
theorem unlock_door_already (g : Game) (p : String) (h : g.door_unlocked = true) :
    g.unlock_door p = (g, [Msg.alreadyUnlocked]) := by
  simp only [Game.unlock_door]
  rw [h]
  rfl

/-- `combat_turn` never touches the rooms, the current room, the door flag,
the password, or the inventory. -/
theorem combat_turn_frame (g : Game) (pd ed : Int) :
    (g.combat_turn pd ed).1.rooms = g.rooms ∧
    (g.combat_turn pd ed).1.current_room = g.current_room ∧
    (g.combat_turn pd ed).1.door_unlocked = g.door_unlocked ∧
    (g.combat_turn pd ed).1.password = g.password ∧
    (g.combat_turn pd ed).1.player.inventory = g.player.inventory := by
  simp only [Game.combat_turn, Player.take_damage]
  repeat' split
  all_goals exact ⟨rfl, rfl, rfl, rfl, rfl⟩

/-! ### Global invariants over reachable states -/

theorem combat_turn_inv (g : Game) (pd ed : Int) (h : StateInv g) (hg : g.game_over = false) :
    StateInv (g.combat_turn pd ed).1 := by
  simp only [Game.combat_turn]
  repeat' split
  all_goals try exact h
  · exact ⟨fun _ => ⟨rfl, rfl⟩, by simp [CombatInv]⟩
  · exact ⟨fun hw => absurd (h.1 hw).1 (by simp [hg]), by simp [CombatInv]⟩
  · rename_i e heq hnc halive hph
    have hin : g.in_combat = true := by
      cases hc : g.in_combat
      · exact absurd hc hnc
      · rfl
    have halive' : 0 < (e.take_damage pd).health := by
      have h2 := not_not.mp halive
      simpa [Enemy.is_alive] using h2
    obtain ⟨-, hwon, hover⟩ := h.2.mp hin
    refine ⟨fun hw => h.1 hw, ?_⟩
    unfold CombatInv
    constructor
    · intro _
      exact ⟨⟨e.take_damage pd, rfl, halive'⟩, hwon, hover⟩
    · intro _
      exact hin

theorem stateInv_of_eq_fields (g g' : Game)
    (h1 : g'.game_won = g.game_won) (h2 : g'.game_over = g.game_over)
    (h3 : g'.enemy_defeated = g.enemy_defeated) (h4 : g'.in_combat = g.in_combat)
    (h5 : g'.enemy = g.enemy) (h : StateInv g) : StateInv g' := by
  unfold StateInv WonInv CombatInv at h ⊢
  rw [h1, h2, h3, h4, h5]
  exact h

theorem move_inv (g : Game) (d : String) (h : StateInv g) (hg : g.game_over = false) :
    StateInv (g.move d).1 := by
  obtain ⟨hp, hr, hdu, hpw, hgo, hgw, hdf⟩ := move_frame g d
  rcases move_combat_cases g d with ⟨hic, hen⟩ | ⟨hdef, hic, hen⟩
  · exact stateInv_of_eq_fields g _ hgw hgo hdf hic hen h
  · have hwon : g.game_won = false := by
      cases hw : g.game_won
      · rfl
      · exact absurd (h.1 hw).1 (by simp [hg])
    refine ⟨?_, ?_⟩
    · intro hw
      rw [hgw, hwon] at hw
      exact Bool.noConfusion hw
    · unfold CombatInv
      rw [hic, hen, hgw, hgo, hwon, hg]
      constructor
      · intro _
        exact ⟨⟨darkWarrior, rfl, by norm_num [darkWarrior]⟩, rfl, rfl⟩
      · intro _
        rfl

theorem stateInv_step (g : Game) (input : String) (pd ed : Int)
    (h : StateInv g) (hg : g.game_over = false) :
    StateInv (g.process_command input pd ed).1 := by
  rcases process_command_shape g input pd ed with
    hid | ⟨hic, hq⟩ | ⟨hic, d, hm⟩ | ⟨hic, hk⟩ | ⟨hic, p, hu⟩ | ⟨hic, hc⟩
  · rw [hid]; exact h
  · rw [hq]
    exact ⟨fun hw => ⟨rfl, (h.1 hw).2⟩, by simp [CombatInv, hic]⟩
  · rw [hm]
    exact move_inv g d h hg
  · rw [hk]
    obtain ⟨_, _, _, hgo, hgw, hin, hen, hdf, _⟩ := take_key_frame g
    exact stateInv_of_eq_fields g _ hgw hgo hdf hin hen h
  · rw [hu]
    obtain ⟨_, _, _, hgo, hgw, hin, hen, hdf⟩ := unlock_door_frame g p
    exact stateInv_of_eq_fields g _ hgw hgo hdf hin hen h
  · rw [hc]
    exact combat_turn_inv g pd ed h hg

theorem stateInv_reachable (g : Game) (h : Reachable g) : StateInv g := by
  induction h with
  | init =>
    exact ⟨by intro hw; exact Bool.noConfusion hw, by simp [CombatInv, Game.init]⟩
  | step g input pd ed hr hg ih => exact stateInv_step g input pd ed ih hg

/-! ### List lemmas about item lookup and removal -/

theorem getItemByName_name (l : List Item) (n : String) (k : Item)
    (h : getItemByName l n = some k) : lowerStr k.name = lowerStr n := by
  induction l with
  | nil => exact Option.noConfusion h
  | cons i rest ih =>
    unfold getItemByName at h
    split at h
    · cases h
      assumption
    · exact ih h

theorem getItemByName_eq_none (l : List Item) (n : String)
    (h : countItemsNamed l n = 0) : getItemByName l n = none := by
  induction l with
  | nil => rfl
  | cons i rest ih =>
    by_cases heq : lowerStr i.name = lowerStr n
    · exfalso
      unfold countItemsNamed at h
      rw [List.filter_cons_of_pos (by simpa using heq)] at h
      exact Nat.noConfusion h
    · unfold getItemByName
      rw [if_neg heq]
      refine ih ?_
      unfold countItemsNamed at h ⊢
      rwa [List.filter_cons_of_neg (by simpa using heq)] at h

theorem count_remove (l : List Item) (n : String) (k : Item)
    (h : getItemByName l n = some k) :
    countItemsNamed (removeItemByName l n).1 n + 1 = countItemsNamed l n := by
  induction l with
  | nil => exact Option.noConfusion h
  | cons i rest ih =>
    unfold getItemByName at h
    split at h
    · rename_i heq
      simp only [removeItemByName, if_pos heq, countItemsNamed]
      rw [List.filter_cons_of_pos (by simpa using heq)]
      simp
    · rename_i hne
      simp only [removeItemByName, if_neg hne, countItemsNamed]
      rw [List.filter_cons_of_neg (by simpa using hne),
          List.filter_cons_of_neg (by simpa using hne)]
      exact ih h

theorem countItemsNamed_append (l1 l2 : List Item) (n : String) :
    countItemsNamed (l1 ++ l2) n = countItemsNamed l1 n + countItemsNamed l2 n := by
  simp [countItemsNamed, List.filter_append]

theorem rooms_get_set (rs : Rooms) (r : RoomId) (room : Room) :
    (rs.set r room).get r = room := by
  cases r <;> rfl

/-! ### Permanence of the unlocked door -/

theorem unlock_perm_step (g : Game) (input : String) (pd ed : Int)
    (h1 : g.door_unlocked = true) (h2 : g.rooms.room1.north_door_locked = false) :
    (g.process_command input pd ed).1.door_unlocked = true ∧
    (g.process_command input pd ed).1.rooms.room1.north_door_locked = false := by
  rcases process_command_shape g input pd ed with
    hid | ⟨hic, hq⟩ | ⟨hic, d, hm⟩ | ⟨hic, hk⟩ | ⟨hic, pw, hu⟩ | ⟨hic, hc⟩
  · rw [hid]
    exact ⟨h1, h2⟩
  · rw [hq]
    exact ⟨h1, h2⟩
  · obtain ⟨_, hr, hdu, _, _, _, _⟩ := move_frame g d
    rw [hm]
    exact ⟨hdu.trans h1, by rw [hr]; exact h2⟩
  · rw [hk]
    obtain ⟨_, hdu, _⟩ := take_key_frame g
    have h3 : (g.take_key).1.rooms.room1.north_door_locked =
        g.rooms.room1.north_door_locked := take_key_locks g .room1
    exact ⟨hdu.trans h1, h3.trans h2⟩
  · rw [hu, unlock_door_already g pw h1]
    exact ⟨h1, h2⟩
  · rw [hc]
    obtain ⟨hr, _, hdu, _, _⟩ := combat_turn_frame g pd ed
    exact ⟨hdu.trans h1, by rw [hr]; exact h2⟩

theorem unlock_perm_run (g : Game) (cmds : List (String × Int × Int))
    (h1 : g.door_unlocked = true) (h2 : g.rooms.room1.north_door_locked = false) :
    (g.runCommands cmds).door_unlocked = true ∧
    (g.runCommands cmds).rooms.room1.north_door_locked = false := by
  induction cmds generalizing g with
  | nil => exact ⟨h1, h2⟩
  | cons c rest ih =>
    obtain ⟨s, pd, ed⟩ := c
    obtain ⟨h1', h2'⟩ := unlock_perm_step g s pd ed h1 h2
    exact ih _ h1' h2'

/-- C1: `unlock_door(p)` checks its preconditions in order: already unlocked,
then missing key, then password comparison; a correct password sets
`door_unlocked` and clears the start room's north lock, and both stay so under
every further command; any other outcome changes nothing. -/
theorem unlock_door_spec (g : Game) (p : String) :
    (g.door_unlocked = true → g.unlock_door p = (g, [Msg.alreadyUnlocked])) ∧
    (g.door_unlocked = false → g.player.has_item "key" = false →
      g.unlock_door p = (g, [Msg.dontHaveKey])) ∧
    (g.door_unlocked = false → g.player.has_item "key" = true → p = g.password →
      g.unlock_door p =
        ({ g with
            door_unlocked := true
            rooms := { g.rooms with
              room1 := { g.rooms.room1 with north_door_locked := false } } },
         [Msg.doorUnlocks])) ∧
    (g.door_unlocked = false → g.player.has_item "key" = true → p ≠ g.password →
      g.unlock_door p = (g, [Msg.incorrectPassword])) ∧
    (∀ cmds : List (String × Int × Int),
      g.door_unlocked = true → g.rooms.room1.north_door_locked = false →
      (g.runCommands cmds).door_unlocked = true ∧
      (g.runCommands cmds).rooms.room1.north_door_locked = false) := by
  refine ⟨fun h => unlock_door_already g p h, ?_, ?_, ?_, ?_⟩
  · intro h1 h2
    simp [Game.unlock_door, h1, h2]
  · intro h1 h2 h3
    simp [Game.unlock_door, h1, h2, h3]
  · intro h1 h2 h3
    simp [Game.unlock_door, h1, h2, h3]
  · intro cmds h1 h2
    exact unlock_perm_run g cmds h1 h2

/-- C3: `take_damage(d)` yields `max(0, health - d)` for player and enemy
alike, and (for the nonnegative damage values the game rolls) keeps health at
or below an unchanged `max_health`. -/
theorem take_damage_spec (p : Player) (e : Enemy) (d : Int) :
    (p.take_damage d).health = max 0 (p.health - d) ∧
    (e.take_damage d).health = max 0 (e.health - d) ∧
    (p.take_damage d).max_health = p.max_health ∧
    (e.take_damage d).max_health = e.max_health ∧
    (0 ≤ d → p.health ≤ p.max_health → 0 ≤ p.max_health →
      (p.take_damage d).health ≤ (p.take_damage d).max_health) ∧
    (0 ≤ d → e.health ≤ e.max_health → 0 ≤ e.max_health →
      (e.take_damage d).health ≤ (e.take_damage d).max_health) := by
  unfold Player.take_damage Enemy.take_damage
  refine ⟨?_, ?_, rfl, rfl, ?_, ?_⟩ <;> dsimp only <;> split <;> omega

/-- C9: an input that is empty or whitespace once lowered and stripped is
ignored: no message is printed and the state is returned unchanged, also
during combat. -/
theorem empty_input_spec (g : Game) (input : String) (pd ed : Int)
    (h : pyStrip (lowerStr input) = "") :
    g.process_command input pd ed = (g, []) := by
  unfold Game.process_command Game.dispatch
  rw [h]
  rfl

/-- C4: with combat off, `go north` against a locked north exit reports the
locked door and returns the state unchanged; `go north` with no north exit
reports that the player cannot go that way and returns the state unchanged. -/
theorem go_north_blocked_spec (g : Game) (pd ed : Int) (hc : g.in_combat = false) :
    ((∃ next, (g.rooms.get g.current_room).north = some next) →
      (g.rooms.get g.current_room).north_door_locked = true →
      g.process_command "go north" pd ed = (g, [Msg.lockedDoor])) ∧
    ((g.rooms.get g.current_room).north = none →
      g.process_command "go north" pd ed = (g, [Msg.cantGoThatWay])) := by
  have hdisp : g.process_command "go north" pd ed = g.move "north" := by
    simp [Game.process_command, Game.dispatch, hc, pyStrip, lowerStr, isPySpace,
      pyStartsWith, pyDrop]
  constructor
  · rintro ⟨next, hn⟩ hl
    rw [hdisp]
    simp [Game.move, lowerStr, hn, hl]
  · intro hn
    rw [hdisp]
    simp [Game.move, lowerStr, hn]

theorem go_north_blocked_spec_witness :
    Game.init.in_combat = false ∧
    Game.init.process_command "go north" 1 1 = (Game.init, [Msg.lockedDoor]) ∧
    noNorthProbe.in_combat = false ∧
    noNorthProbe.process_command "go north" 1 1 = (noNorthProbe, [Msg.cantGoThatWay]) :=
  ⟨rfl,
   (go_north_blocked_spec Game.init 1 1 rfl).1 ⟨.room2, rfl⟩ rfl,
   rfl,
   (go_north_blocked_spec noNorthProbe 1 1 rfl).2 rfl⟩

/-- C7 (amended): while in combat, every input that is nonempty once lowered
and stripped and differs from `attack` yields only the you-can-only-attack
reminder and leaves the state unchanged; empty input yields nothing and
changes nothing; `attack` runs the combat round. -/
theorem combat_vocabulary_spec (g : Game) (input : String) (pd ed : Int)
    (hc : g.in_combat = true) :
    (pyStrip (lowerStr input) ≠ "" → pyStrip (lowerStr input) ≠ "attack" →
      g.process_command input pd ed = (g, [Msg.combatOnlyAttack])) ∧
    (pyStrip (lowerStr input) = "" → g.process_command input pd ed = (g, [])) ∧
    (pyStrip (lowerStr input) = "attack" →
      g.process_command input pd ed = g.combat_turn pd ed) := by
  refine ⟨?_, ?_, ?_⟩
  · intro h1 h2
    unfold Game.process_command Game.dispatch
    rw [if_neg h1, if_pos hc, if_neg h2]
  · intro h1
    unfold Game.process_command Game.dispatch
    rw [h1]
    rfl
  · intro h1
    unfold Game.process_command Game.dispatch
    rw [h1]
    rw [if_neg (by decide : ¬ ("attack" : String) = ""), if_pos hc, if_pos rfl]

theorem combat_vocabulary_spec_witness :
    combatProbe.in_combat = true ∧
    pyStrip (lowerStr "quit") ≠ "" ∧ pyStrip (lowerStr "quit") ≠ "attack" ∧
    combatProbe.process_command "quit" 1 1 = (combatProbe, [Msg.combatOnlyAttack]) ∧
    combatProbe.process_command "attack" 3 2 = combatProbe.combat_turn 3 2 :=
  ⟨rfl, by decide, by decide,
   (combat_vocabulary_spec combatProbe "quit" 1 1 rfl).1 (by decide) (by decide),
   (combat_vocabulary_spec combatProbe "attack" 3 2 rfl).2.2 (by decide)⟩

/-- C7 as literally stated is false: in combat, the whitespace-only input
`" "` differs from `attack` after trimming, yet the interpreter prints
nothing at all rather than the you-can-only-attack reminder. -/
theorem combat_vocabulary_counterexample :
    combatProbe.in_combat = true ∧
    pyStrip (lowerStr " ") ≠ "attack" ∧
    combatProbe.process_command " " 1 1 = (combatProbe, []) ∧
    (combatProbe.process_command " " 1 1).2 ≠ [Msg.combatOnlyAttack] :=
  ⟨rfl, by decide, rfl, by decide⟩

/-- C2: in a combat round, the player's roll hits the enemy first; if the
enemy drops to zero the round ends at once as a win with no counter-attack;
otherwise the enemy's roll hits the player, a zero player ends the game as a
loss, and otherwise combat continues. -/
theorem combat_round_spec (g : Game) (e : Enemy) (pd ed : Int)
    (he : g.enemy = some e) (hc : g.in_combat = true) :
    (g.process_command "attack" pd ed = g.combat_turn pd ed) ∧
    ((e.take_damage pd).health ≤ 0 →
      g.combat_turn pd ed =
        ({ g with
            enemy := some (e.take_damage pd)
            in_combat := false
            enemy_defeated := true
            game_won := true
            game_over := true },
         [Msg.playerAttack (e.take_damage pd).name pd (e.take_damage pd).health
            (e.take_damage pd).max_health,
          Msg.victory (e.take_damage pd).name]) ∧
      (g.combat_turn pd ed).1.player = g.player) ∧
    (0 < (e.take_damage pd).health →
      (g.combat_turn pd ed).1.player = g.player.take_damage ed ∧
      ((g.player.take_damage ed).health ≤ 0 →
        g.combat_turn pd ed =
          ({ g with
              enemy := some (e.take_damage pd)
              player := g.player.take_damage ed
              in_combat := false
              game_over := true },
           [Msg.playerAttack (e.take_damage pd).name pd (e.take_damage pd).health
              (e.take_damage pd).max_health,
            Msg.enemyAttack (e.take_damage pd).name ed (g.player.take_damage ed).health
              (g.player.take_damage ed).max_health,
            Msg.defeat])) ∧
      (0 < (g.player.take_damage ed).health →
        g.combat_turn pd ed =
          ({ g with
              enemy := some (e.take_damage pd)
              player := g.player.take_damage ed },
           [Msg.playerAttack (e.take_damage pd).name pd (e.take_damage pd).health
              (e.take_damage pd).max_health,
            Msg.enemyAttack (e.take_damage pd).name ed (g.player.take_damage ed).health
              (g.player.take_damage ed).max_health,
            Msg.whatWillYouDo]))) := by
  refine ⟨?_, ?_, ?_⟩
  · unfold Game.process_command Game.dispatch
    rw [if_neg (by decide : ¬ pyStrip (lowerStr "attack") = ""), if_pos hc,
      if_pos (by decide : pyStrip (lowerStr "attack") = "attack")]
  · intro hdead
    have ha : ¬ (e.take_damage pd).is_alive = true := by
      simp only [Enemy.is_alive, gt_iff_lt, decide_eq_true_eq]
      omega
    refine ⟨?_, ?_⟩ <;> simp [Game.combat_turn, he, hc, ha]
  · intro halive
    have ha : (e.take_damage pd).is_alive = true := by
      simp only [Enemy.is_alive, gt_iff_lt, decide_eq_true_eq]
      omega
    refine ⟨?_, ?_, ?_⟩
    · by_cases hp : (g.player.take_damage ed).health ≤ 0 <;>
        simp [Game.combat_turn, he, hc, ha, hp]
    · intro hp
      simp [Game.combat_turn, he, hc, ha, hp]
    · intro hp
      have hp' : ¬ (g.player.take_damage ed).health ≤ 0 := not_le.mpr hp
      simp [Game.combat_turn, he, hc, ha, hp']

theorem combat_round_spec_witness :
    wArena.enemy = some darkWarrior ∧ wArena.in_combat = true ∧
    (darkWarrior.take_damage 10).health ≤ 0 ∧
    wArena.combat_turn 10 2 =
      ({ wArena with
          enemy := some (darkWarrior.take_damage 10)
          in_combat := false
          enemy_defeated := true
          game_won := true
          game_over := true },
       [Msg.playerAttack (darkWarrior.take_damage 10).name 10
          (darkWarrior.take_damage 10).health (darkWarrior.take_damage 10).max_health,
        Msg.victory (darkWarrior.take_damage 10).name]) ∧
    (wArena.combat_turn 10 2).1.player = wArena.player ∧
    0 < (darkWarrior.take_damage 3).health ∧
    (wArena.combat_turn 3 2).1.player = wArena.player.take_damage 2 :=
  ⟨rfl, rfl, by decide,
   ((combat_round_spec wArena darkWarrior 10 2 rfl rfl).2.1 (by decide)).1,
   ((combat_round_spec wArena darkWarrior 10 2 rfl rfl).2.1 (by decide)).2,
   by decide,
   ((combat_round_spec wArena darkWarrior 3 2 rfl rfl).2.2 (by decide)).1⟩

/-- C8: each of `take key`, `pick up key`, `get key` runs `take_key`; with a
key-named item present, `take_key` removes it from the room and appends it to
the inventory, so (when the room held exactly one and the inventory none) it
ends up in exactly one container; a second attempt in the same room reports
absence and changes nothing. -/
theorem take_key_none (g : Game)
    (h : getItemByName (g.rooms.get g.current_room).items "key" = none) :
    g.take_key = (g, [Msg.noKeyHere]) := by
  simp [Game.take_key, Room.get_item, h]

theorem take_key_spec (g : Game) (pd ed : Int) (k : Item)
    (hc : g.in_combat = false)
    (hk : (g.rooms.get g.current_room).get_item "key" = some k) :
    (∀ cmd, cmd = "take key" ∨ cmd = "pick up key" ∨ cmd = "get key" →
      g.process_command cmd pd ed = g.take_key) ∧
    g.take_key =
      ({ g with
          rooms := g.rooms.set g.current_room
            ((g.rooms.get g.current_room).remove_item "key").1
          player := g.player.add_item k },
       [Msg.pickedUpKey]) ∧
    (countItemsNamed (g.rooms.get g.current_room).items "key" = 1 →
     countItemsNamed g.player.inventory "key" = 0 →
     countItemsNamed ((g.take_key).1.rooms.get g.current_room).items "key" = 0 ∧
     countItemsNamed (g.take_key).1.player.inventory "key" = 1 ∧
     (g.take_key).1.process_command "take key" pd ed =
       ((g.take_key).1, [Msg.noKeyHere])) := by
  have hkey : getItemByName (g.rooms.get g.current_room).items "key" = some k := hk
  have htake : g.take_key =
      ({ g with
          rooms := g.rooms.set g.current_room
            ((g.rooms.get g.current_room).remove_item "key").1
          player := g.player.add_item k },
       [Msg.pickedUpKey]) := by
    simp [Game.take_key, Room.get_item, hkey]
  refine ⟨?_, htake, ?_⟩
  · rintro cmd (rfl | rfl | rfl) <;>
      simp [Game.process_command, Game.dispatch, hc, pyStrip, lowerStr, isPySpace,
        pyStartsWith, pyDrop]
  · intro hc1 hc0
    have hname := getItemByName_name _ _ _ hkey
    have hrem : countItemsNamed
        (removeItemByName (g.rooms.get g.current_room).items "key").1 "key" = 0 := by
      have h2 := count_remove _ _ _ hkey
      omega
    have hroom : (g.take_key).1.rooms.get g.current_room =
        ((g.rooms.get g.current_room).remove_item "key").1 := by
      rw [htake]
      exact rooms_get_set _ _ _
    refine ⟨?_, ?_, ?_⟩
    · rw [hroom]
      simpa [Room.remove_item] using hrem
    · rw [htake]
      show countItemsNamed (g.player.inventory ++ [k]) "key" = 1
      rw [countItemsNamed_append, hc0]
      simp [countItemsNamed, hname]
    · have hic : (g.take_key).1.in_combat = false :=
        ((take_key_frame g).2.2.2.2.2.1).trans hc
      have hcr : (g.take_key).1.current_room = g.current_room := (take_key_frame g).1
      have hnone : getItemByName
          ((g.take_key).1.rooms.get (g.take_key).1.current_room).items "key" = none := by
        rw [hcr, hroom]
        exact getItemByName_eq_none _ _ (by simpa [Room.remove_item] using hrem)
      have hdisp : (g.take_key).1.process_command "take key" pd ed =
          (g.take_key).1.take_key := by
        simp [Game.process_command, Game.dispatch, hic, pyStrip, lowerStr, isPySpace,
          pyStartsWith, pyDrop]
      rw [hdisp]
      exact take_key_none _ hnone

theorem take_key_spec_witness :
    Game.init.in_combat = false ∧
    (Game.init.rooms.get Game.init.current_room).get_item "key" = some keyItem ∧
    countItemsNamed (Game.init.rooms.get Game.init.current_room).items "key" = 1 ∧
    countItemsNamed Game.init.player.inventory "key" = 0 ∧
    Game.init.process_command "take key" 1 1 = Game.init.take_key ∧
    countItemsNamed ((Game.init.take_key).1.rooms.get Game.init.current_room).items "key" = 0 ∧
    countItemsNamed (Game.init.take_key).1.player.inventory "key" = 1 ∧
    (Game.init.take_key).1.process_command "take key" 1 1 =
      ((Game.init.take_key).1, [Msg.noKeyHere]) := by
  refine ⟨rfl, by decide, by decide, by decide, ?_, ?_, ?_, ?_⟩
  · exact (take_key_spec Game.init 1 1 keyItem rfl (by decide)).1 "take key" (Or.inl rfl)
  · exact ((take_key_spec Game.init 1 1 keyItem rfl (by decide)).2.2 (by decide) (by decide)).1
  · exact ((take_key_spec Game.init 1 1 keyItem rfl (by decide)).2.2 (by decide) (by decide)).2.1
  · exact ((take_key_spec Game.init 1 1 keyItem rfl (by decide)).2.2 (by decide) (by decide)).2.2

/-! ### Once the enemy is defeated, combat never restarts -/

theorem defeated_frozen_step (g : Game) (input : String) (pd ed : Int)
    (hdef : g.enemy_defeated = true) (hc : g.in_combat = false) :
    (g.process_command input pd ed).1.enemy_defeated = true ∧
    (g.process_command input pd ed).1.in_combat = false ∧
    (g.process_command input pd ed).1.enemy = g.enemy := by
  rcases process_command_shape g input pd ed with
    hid | ⟨hic, hq⟩ | ⟨hic, d, hm⟩ | ⟨hic, hk⟩ | ⟨hic, pw, hu⟩ | ⟨hic, hcc⟩
  · rw [hid]
    exact ⟨hdef, hc, rfl⟩
  · rw [hq]
    exact ⟨hdef, hc, rfl⟩
  · rw [hm]
    obtain ⟨_, _, _, _, _, _, hdf⟩ := move_frame g d
    rcases move_combat_cases g d with ⟨hin, hen⟩ | ⟨hdef', _, _⟩
    · exact ⟨hdf.trans hdef, hin.trans hc, hen⟩
    · rw [hdef] at hdef'
      exact Bool.noConfusion hdef'
  · rw [hk]
    obtain ⟨_, _, _, _, _, hin, hen, hdf, _⟩ := take_key_frame g
    exact ⟨hdf.trans hdef, hin.trans hc, hen⟩
  · rw [hu]
    obtain ⟨_, _, _, _, _, hin, hen, hdf⟩ := unlock_door_frame g pw
    exact ⟨hdf.trans hdef, hin.trans hc, hen⟩
  · rw [hc] at hic
    exact Bool.noConfusion hic

theorem defeated_frozen_run (g : Game) (cmds : List (String × Int × Int))
    (hdef : g.enemy_defeated = true) (hc : g.in_combat = false) :
    (g.runCommands cmds).enemy_defeated = true ∧
    (g.runCommands cmds).in_combat = false ∧
    (g.runCommands cmds).enemy = g.enemy := by
  induction cmds generalizing g with
  | nil => exact ⟨hdef, hc, rfl⟩
  | cons c rest ih =>
    obtain ⟨s, pd, ed⟩ := c
    obtain ⟨h1, h2, h3⟩ := defeated_frozen_step g s pd ed hdef hc
    obtain ⟨h1', h2', h3'⟩ := ih _ h1 h2
    exact ⟨h1', h2', h3'.trans h3⟩

/-- C5: going north into the Enemy Arena with the enemy undefeated starts
combat with a fresh Dark Warrior at its configured maximum of 10 health and
damage range 1-4; with `enemy_defeated` set, entering only moves the player,
and in any defeated non-combat state no sequence of further commands ever
re-enters combat or replaces the enemy. -/
theorem arena_combat_spec (g : Game) (next : RoomId) (pd ed : Int)
    (hc : g.in_combat = false)
    (hnorth : (g.rooms.get g.current_room).north = some next)
    (hlock : (g.rooms.get g.current_room).north_door_locked = false)
    (hname : (g.rooms.get next).name = "Enemy Arena") :
    (g.enemy_defeated = false →
      g.process_command "go north" pd ed =
        ({ g with
            current_room := next
            enemy := some darkWarrior
            in_combat := true },
         [Msg.fullDesc (g.rooms.get next),
          Msg.combatStart darkWarrior.health darkWarrior.max_health
            g.player.health g.player.max_health])) ∧
    darkWarrior =
      { name := "Dark Warrior", health := 10, max_health := 10,
        min_damage := 1, max_damage := 4 } ∧
    darkWarrior.health = darkWarrior.max_health ∧
    (g.enemy_defeated = true →
      g.process_command "go north" pd ed =
        ({ g with current_room := next }, [Msg.fullDesc (g.rooms.get next)])) ∧
    (∀ (g' : Game) (cmds : List (String × Int × Int)),
      g'.enemy_defeated = true → g'.in_combat = false →
      (g'.runCommands cmds).in_combat = false ∧
      (g'.runCommands cmds).enemy = g'.enemy ∧
      (g'.runCommands cmds).enemy_defeated = true) := by
  have hdisp : g.process_command "go north" pd ed = g.move "north" := by
    simp [Game.process_command, Game.dispatch, hc, pyStrip, lowerStr, isPySpace,
      pyStartsWith, pyDrop]
  refine ⟨?_, rfl, rfl, ?_, ?_⟩
  · intro hdef
    rw [hdisp]
    simp [Game.move, Game.start_combat, lowerStr, hnorth, hlock, hname, hdef, darkWarrior]
  · intro hdef
    rw [hdisp]
    simp [Game.move, lowerStr, hnorth, hlock, hname, hdef]
  · intro g' cmds hdef hic
    obtain ⟨h1, h2, h3⟩ := defeated_frozen_run g' cmds hdef hic
    exact ⟨h2, h3, h1⟩

theorem arena_combat_spec_witness :
    wTreasury.in_combat = false ∧
    (wTreasury.rooms.get wTreasury.current_room).north = some RoomId.room3 ∧
    (wTreasury.rooms.get wTreasury.current_room).north_door_locked = false ∧
    (wTreasury.rooms.get RoomId.room3).name = "Enemy Arena" ∧
    wTreasury.enemy_defeated = false ∧
    wTreasury.process_command "go north" 1 1 =
      ({ wTreasury with
          current_room := RoomId.room3
          enemy := some darkWarrior
          in_combat := true },
       [Msg.fullDesc (wTreasury.rooms.get RoomId.room3),
        Msg.combatStart darkWarrior.health darkWarrior.max_health
          wTreasury.player.health wTreasury.player.max_health]) ∧
    noNorthProbe.enemy_defeated = true ∧ noNorthProbe.in_combat = false ∧
    (noNorthProbe.runCommands [("go south", 1, 1), ("go north", 1, 1)]).in_combat = false :=
  ⟨rfl, rfl, rfl, rfl, rfl,
   (arena_combat_spec wTreasury RoomId.room3 1 1 rfl rfl rfl rfl).1 rfl,
   rfl, rfl,
   ((arena_combat_spec wTreasury RoomId.room3 1 1 rfl rfl rfl rfl).2.2.2.2
      noNorthProbe [("go south", 1, 1), ("go north", 1, 1)] rfl rfl).1⟩

/-! ### The concrete winning run is reachable -/

theorem reachable_wTake : Reachable wTake :=
  Reachable.step Game.init "take key" 1 1 Reachable.init rfl

theorem reachable_wUnlock : Reachable wUnlock :=
  Reachable.step wTake "unlock door with shadow" 1 1 reachable_wTake rfl

theorem reachable_wTreasury : Reachable wTreasury :=
  Reachable.step wUnlock "go north" 1 1 reachable_wUnlock rfl

theorem reachable_wArena : Reachable wArena :=
  Reachable.step wTreasury "go north" 1 1 reachable_wTreasury rfl

theorem reachable_wHalf : Reachable wHalf :=
  Reachable.step wArena "attack" 6 2 reachable_wArena rfl

theorem reachable_wWon : Reachable wWon :=
  Reachable.step wHalf "attack" 6 2 reachable_wHalf rfl

/-- C6: in every reachable state, combat mode holds exactly when an enemy
object with positive health is present and neither the win nor the loss flag
has been raised. -/
theorem in_combat_iff_spec (g : Game) (h : Reachable g) :
    g.in_combat = true ↔
      ((∃ e, g.enemy = some e ∧ 0 < e.health) ∧
       g.game_won = false ∧ g.game_over = false) :=
  (stateInv_reachable g h).2

theorem in_combat_iff_spec_witness :
    (wArena.in_combat = true ↔
      ((∃ e, wArena.enemy = some e ∧ 0 < e.health) ∧
       wArena.game_won = false ∧ wArena.game_over = false)) :=
  in_combat_iff_spec wArena reachable_wArena

/-- C10: in every reachable state, a raised `game_won` flag comes with raised
`game_over` and `enemy_defeated` flags. -/
theorem win_sets_flags_spec (g : Game) (h : Reachable g) :
    g.game_won = true → g.game_over = true ∧ g.enemy_defeated = true :=
  (stateInv_reachable g h).1

theorem win_sets_flags_spec_witness :
    wWon.game_won = true ∧ wWon.game_over = true ∧ wWon.enemy_defeated = true :=
  ⟨rfl, (win_sets_flags_spec wWon reachable_wWon rfl).1,
   (win_sets_flags_spec wWon reachable_wWon rfl).2⟩

/-! ### Remaining concrete witnesses -/

theorem unlock_door_spec_witness :
    wTake.door_unlocked = false ∧ wTake.player.has_item "key" = true ∧
    "SHADOW" = wTake.password ∧
    wTake.unlock_door "SHADOW" =
      ({ wTake with
          door_unlocked := true
          rooms := { wTake.rooms with
            room1 := { wTake.rooms.room1 with north_door_locked := false } } },
       [Msg.doorUnlocks]) ∧
    ((wTake.unlock_door "SHADOW").1.runCommands [("go north", 1, 1)]).door_unlocked = true :=
  ⟨rfl, by decide, rfl,
   (unlock_door_spec wTake "SHADOW").2.2.1 rfl (by decide) rfl,
   ((unlock_door_spec (wTake.unlock_door "SHADOW").1 "x").2.2.2.2
      [("go north", 1, 1)] rfl rfl).1⟩

theorem take_damage_spec_witness :
    (Player.init.take_damage 6).health = max 0 (Player.init.health - 6) ∧
    (darkWarrior.take_damage 4).health = max 0 (darkWarrior.health - 4) ∧
    (Player.init.take_damage 6).health ≤ (Player.init.take_damage 6).max_health ∧
    (darkWarrior.take_damage 4).health ≤ (darkWarrior.take_damage 4).max_health :=
  ⟨(take_damage_spec Player.init darkWarrior 6).1,
   (take_damage_spec Player.init darkWarrior 4).2.1,
   (take_damage_spec Player.init darkWarrior 6).2.2.2.2.1
     (by decide) (by decide) (by decide),
   (take_damage_spec Player.init darkWarrior 4).2.2.2.2.2
     (by decide) (by decide) (by decide)⟩

theorem empty_input_spec_witness :
    pyStrip (lowerStr "   ") = "" ∧
    combatProbe.process_command "   " 1 1 = (combatProbe, []) :=
  ⟨rfl, empty_input_spec combatProbe "   " 1 1 rfl⟩

end Adventure
